import Mathlib

/-!
Shallow embedding of `src/app.py` (automated plant camera): configuration,
camera capture, Google Drive folder resolution, upload with retry, the
per-cycle driver `capture_and_upload`, authentication, the signal handler
and the main loop.  External effects (camera device, filesystem, remote
Drive service, wall clock) are modelled as explicit environment records;
a Python call that may raise an exception is given a Boolean raise flag in
the environment, and `except` clauses are translated by the corresponding
case split.
-/

namespace PlantCam

/-- The `CONFIG` dictionary at the top of `app.py`. -/
structure Config where
  image_root : String
  capture_interval_seconds : Nat
  camera_index : Nat
  image_quality : Nat
  warmup_time : Nat
  max_retries : Nat
deriving Repr, DecidableEq

/-- `CONFIG` with the literal values of `app.py`. -/
def CONFIG : Config :=
  { image_root := "captured_images"
  , capture_interval_seconds := 60
  , camera_index := 0
  , image_quality := 95
  , warmup_time := 2
  , max_retries := 3 }

/-- Python truthiness of an optional string (`if parent_id:` and
`if drive and plants_folder_id:`): `None` and the empty string are falsy. -/
def truthyStr : Option String → Bool
  | none => false
  | some s => s.length != 0

/-- The wall-clock instant handed out by `datetime.now()`. -/
structure Timestamp where
  year : Nat
  month : Nat
  day : Nat
  hour : Nat
  minute : Nat
  second : Nat
deriving Repr, DecidableEq

/-- Zero padding to two digits, as `strftime` does for `%m %d %H %M %S`. -/
def pad2 (n : Nat) : String :=
  if n < 10 then "0" ++ toString n else toString n

/-- Zero padding to four digits, as `strftime` does for `%Y`. -/
def pad4 (n : Nat) : String :=
  if n < 10 then "000" ++ toString n
  else if n < 100 then "00" ++ toString n
  else if n < 1000 then "0" ++ toString n
  else toString n

/-- `now.strftime("%Y-%m-%d")` — the date folder name (line 194). -/
def strftimeDateFolder (t : Timestamp) : String :=
  pad4 t.year ++ "-" ++ pad2 t.month ++ "-" ++ pad2 t.day

/-- `now.strftime("%Y%m%d_%H%M%S") + ".jpg"` — the image file name (line 195). -/
def strftimeFilename (t : Timestamp) : String :=
  pad4 t.year ++ pad2 t.month ++ pad2 t.day ++ "_"
    ++ pad2 t.hour ++ pad2 t.minute ++ pad2 t.second ++ ".jpg"

/-- `os.path.join` for the relative components used by `app.py`. -/
def ospJoin (a b : String) : String := a ++ "/" ++ b

/-- Environment of one `capture_image` call: the camera device and the
write destination.  Each external call that the surrounding
`try/except Exception` can observe raising carries a raise flag. -/
structure CameraEnv where
  /-- `cv2.VideoCapture(index)` raises; then `cam` stays `None`. -/
  ctorRaises : Bool
  /-- result of `cam.isOpened()`. -/
  isOpened : Bool
  /-- one of the two `cam.set` property calls raises. -/
  setRaises : Bool
  /-- `cam.read()` raises. -/
  readRaises : Bool
  /-- first component `ret` of `cam.read()`. -/
  readRet : Bool
  /-- the returned `frame` is not `None`. -/
  frameSome : Bool
  /-- `cv2.imwrite` raises; no file is produced. -/
  imwriteRaises : Bool
  /-- size of the file `cv2.imwrite` leaves at `filepath`
  (`none` models a write that silently produced no file). -/
  writtenSize : Option Nat
  /-- the file already at `filepath` before the call, if any. -/
  preexisting : Option Nat
deriving Repr, DecidableEq

/-- What one `capture_image` call did. -/
structure CaptureOutcome where
  /-- the Boolean the function returns. -/
  result : Bool
  /-- an exception escaped `capture_image` (the body is wrapped in
  `try/except Exception`, so this should always be `false`). -/
  raised : Bool
  /-- `cam` was bound to a device object (`cam is not None` in `finally`). -/
  acquired : Bool
  /-- `cam.release()` ran in the `finally` block. -/
  released : Bool
  /-- `cv2.imwrite` completed and left a file state at `filepath`. -/
  wrote : Bool
deriving Repr, DecidableEq

/-- `capture_image(filepath)` (lines 113–155).  Returns the outcome and the
file found at `filepath` afterwards (its size, or `none` if absent).  The
control flow mirrors the source: early `return False` on open/read failure,
the size check `os.path.getsize(filepath) > 1000`, `except Exception`
turning any raise into `return False`, and the `finally` release. -/
def capture_image (env : CameraEnv) : CaptureOutcome × Option Nat :=
  if env.ctorRaises then
    -- `cam` is still None: except catches, finally skips release
    (⟨false, false, false, false, false⟩, env.preexisting)
  else if !env.isOpened then
    (⟨false, false, true, true, false⟩, env.preexisting)
  else if env.setRaises then
    (⟨false, false, true, true, false⟩, env.preexisting)
  else if env.readRaises then
    (⟨false, false, true, true, false⟩, env.preexisting)
  else if !env.readRet || !env.frameSome then
    (⟨false, false, true, true, false⟩, env.preexisting)
  else if env.imwriteRaises then
    (⟨false, false, true, true, false⟩, env.preexisting)
  else
    let fileNow := env.writtenSize
    let ok := match fileNow with
      | some sz => decide (sz > 1000)
      | none => false
    (⟨ok, false, true, true, true⟩, fileNow)

/-- `upload_with_retry` (lines 159–183), the `for attempt in range(max_retries)`
loop: `attemptRaises i` tells whether the Drive upload of attempt `i` (0-based)
raises.  Recursion on the remaining range; returns (returned Boolean, number
of attempts performed, list of sleep durations in order). -/
def uploadLoop (attemptRaises : Nat → Bool) (max_retries : Nat) :
    Nat → Nat → Bool × Nat × List Nat
  | _, 0 => (false, 0, [])
  | attempt, remaining + 1 =>
    if attemptRaises attempt then
      let sleeps := if attempt < max_retries - 1 then [5] else []
      let rest := uploadLoop attemptRaises max_retries (attempt + 1) remaining
      (rest.1, rest.2.1 + 1, sleeps ++ rest.2.2)
    else
      (true, 1, [])

/-- `upload_with_retry(local_filepath, filename, day_folder_id, max_retries=None)`:
the `None` default is replaced by `CONFIG['max_retries']` (lines 161–162). -/
def upload_with_retry (attemptRaises : Nat → Bool)
    (max_retries : Option Nat) : Bool × Nat × List Nat :=
  let m := max_retries.getD CONFIG.max_retries
  uploadLoop attemptRaises m 0 m

/-- One folder as the remote Drive stores it. -/
structure DriveFolder where
  id : String
  title : String
  isFolder : Bool
  trashed : Bool
  /-- identifiers of the folder's parents; a folder created without an
  explicit parent is placed by the service under `"root"`. -/
  parents : List String
deriving Repr, DecidableEq

/-- The remote Drive seen by this program: the folder list in the order the
service returns query results, plus a counter supplying fresh identifiers. -/
structure DriveState where
  folders : List DriveFolder
  nextId : Nat
deriving Repr, DecidableEq

/-- Fresh identifier the service assigns to the `n`-th created folder. -/
def freshId (n : Nat) : String := "drive-id-" ++ toString n

/-- Remote-call raise flags for one `get_or_create_drive_folder` call. -/
structure FolderEnv where
  /-- `drive.ListFile({'q': query}).GetList()` raises. -/
  listRaises : Bool
  /-- `folder.Upload()` raises; the folder is then not created. -/
  createRaises : Bool
deriving Repr, DecidableEq

/-- The filter query built on lines 88–92: exact title, folder mime type,
not trashed, scoped to `parent_id` when that is truthy and to `'root'`
otherwise. -/
def queryMatches (name : String) (parent_id : Option String)
    (f : DriveFolder) : Bool :=
  f.title == name && f.isFolder && !f.trashed &&
    (if truthyStr parent_id then (parent_id.getD "") ∈ f.parents
     else "root" ∈ f.parents)

/-- The folder created by lines 99–103: `folder_metadata` carries the
title and the folder mime type, and a `parents` entry only when
`parent_id` is truthy; the service then files it under `root`. -/
def createdFolder (name : String) (parent_id : Option String) (n : Nat) :
    DriveFolder :=
  { id := freshId n
  , title := name
  , isFolder := true
  , trashed := false
  , parents := if truthyStr parent_id then [parent_id.getD ""] else ["root"] }

/-- `get_or_create_drive_folder(name, parent_id=None)` (lines 85–109).
`driveAuthed` is whether the global `drive` is bound (on `None` the
attribute access raises and the `except` returns `None`).  Returns the
folder identifier or `none`, and the Drive state afterwards. -/
def get_or_create_drive_folder (driveAuthed : Bool) (env : FolderEnv)
    (ds : DriveState) (name : String) (parent_id : Option String) :
    Option String × DriveState :=
  if !driveAuthed then (none, ds)
  else if env.listRaises then (none, ds)
  else
    match ds.folders.filter (queryMatches name parent_id) with
    | f :: _ => (some f.id, ds)
    | [] =>
      if env.createRaises then (none, ds)
      else
        (some (createdFolder name parent_id ds.nextId).id,
         { folders := ds.folders ++ [createdFolder name parent_id ds.nextId]
         , nextId := ds.nextId + 1 })

/-- The module-level globals of `app.py` (lines 36–39): `drive`,
`plants_folder_id` and `running`. -/
structure Globals where
  /-- `drive` is bound to a `GoogleDrive` object (not `None`). -/
  driveAuthed : Bool
  plants_folder_id : Option String
  running : Bool
deriving Repr, DecidableEq

/-- Environment of one `capture_and_upload` call. -/
structure CycleEnv where
  /-- `datetime.now()`. -/
  nowT : Timestamp
  /-- `os.makedirs(local_day_folder, exist_ok=True)` raises (line 199;
  this call is not inside any `try`). -/
  makedirsRaises : Bool
  cam : CameraEnv
  /-- raise flags for the day-folder `get_or_create_drive_folder` call. -/
  folderEnv : FolderEnv
  /-- raise flags of the upload attempts, by 0-based attempt index. -/
  attemptRaises : Nat → Bool
  /-- `os.listdir(local_day_folder)` raises (line 214; also not inside
  any `try`). -/
  listdirRaises : Bool

/-- Observable record of one `capture_and_upload` call. -/
structure CycleOut where
  /-- an exception escaped `capture_and_upload` to its caller. -/
  raised : Bool
  /-- the `if not running: return` guard fired. -/
  returnedNotRunning : Bool
  /-- `capture_image` was invoked. -/
  captureCalled : Bool
  /-- `capture_image` returned `True`. -/
  captureOk : Bool
  /-- the `local_filepath` string the function computed. -/
  localPath : String
  /-- the file at `local_filepath` after the call (size, or `none`). -/
  fileAfter : Option Nat
  /-- `get_or_create_drive_folder` was invoked for the day folder. -/
  resolverCalled : Bool
  /-- `upload_with_retry` was invoked. -/
  uploadCalled : Bool
  /-- `upload_with_retry` returned `True`. -/
  uploadOk : Bool
  /-- the `Skipping upload - Drive not authenticated` warning was logged. -/
  skipWarning : Bool
  /-- the `Could not create/access Drive folder` error was logged. -/
  folderError : Bool
deriving Repr, DecidableEq

/-- The `CycleOut` of a call that returned at the `running` guard. -/
def cycleOutIdle : CycleOut :=
  ⟨false, true, false, false, "", none, false, false, false, false, false⟩

/-- `capture_and_upload()` (lines 187–218) over globals `g`, remote state
`ds` and environment `env`.  `os.makedirs` and `os.listdir` sit outside
every `try`, so their raising makes the whole call raise. -/
def capture_and_upload (g : Globals) (ds : DriveState) (env : CycleEnv) :
    CycleOut × DriveState :=
  if !g.running then (cycleOutIdle, ds)
  else
    let date_folder := strftimeDateFolder env.nowT
    let filename := strftimeFilename env.nowT
    let local_day_folder := ospJoin CONFIG.image_root date_folder
    if env.makedirsRaises then
      ({ raised := true, returnedNotRunning := false
       , captureCalled := false, captureOk := false
       , localPath := "", fileAfter := none
       , resolverCalled := false, uploadCalled := false, uploadOk := false
       , skipWarning := false, folderError := false }, ds)
    else
      let local_filepath := ospJoin local_day_folder filename
      let cap := capture_image env.cam
      if !cap.1.result then
        ({ raised := false, returnedNotRunning := false
         , captureCalled := true, captureOk := false
         , localPath := local_filepath, fileAfter := cap.2
         , resolverCalled := false, uploadCalled := false, uploadOk := false
         , skipWarning := false, folderError := false }, ds)
      else if g.driveAuthed && truthyStr g.plants_folder_id then
        let resolved := get_or_create_drive_folder g.driveAuthed env.folderEnv
          ds date_folder g.plants_folder_id
        if truthyStr resolved.1 then
          let up := upload_with_retry env.attemptRaises none
          if up.1 then
            -- success path runs `len(os.listdir(local_day_folder))`
            ({ raised := env.listdirRaises, returnedNotRunning := false
             , captureCalled := true, captureOk := true
             , localPath := local_filepath, fileAfter := cap.2
             , resolverCalled := true, uploadCalled := true, uploadOk := true
             , skipWarning := false, folderError := false }, resolved.2)
          else
            ({ raised := false, returnedNotRunning := false
             , captureCalled := true, captureOk := true
             , localPath := local_filepath, fileAfter := cap.2
             , resolverCalled := true, uploadCalled := true, uploadOk := false
             , skipWarning := false, folderError := false }, resolved.2)
        else
          ({ raised := false, returnedNotRunning := false
           , captureCalled := true, captureOk := true
           , localPath := local_filepath, fileAfter := cap.2
           , resolverCalled := true, uploadCalled := false, uploadOk := false
           , skipWarning := false, folderError := true }, resolved.2)
      else
        ({ raised := false, returnedNotRunning := false
         , captureCalled := true, captureOk := true
         , localPath := local_filepath, fileAfter := cap.2
         , resolverCalled := false, uploadCalled := false, uploadOk := false
         , skipWarning := true, folderError := false }, ds)

/-- Environment of one `authenticate_drive` call: whether any of the
`GoogleAuth` steps (credential load, web auth, refresh, authorize, save)
raises, plus the raise flags of the `plants` folder resolution. -/
structure AuthEnv where
  gauthRaises : Bool
  folderEnv : FolderEnv

/-- `authenticate_drive()` (lines 54–83) over initial globals `g0` and
remote state `ds`.  On a `GoogleAuth` exception the `except` block returns
`False` with globals unchanged; otherwise `drive` is bound, the `plants`
folder is resolved with `get_or_create_drive_folder` (whose own `except`
already absorbs failures into `None`), and the function returns `True`
whatever that resolution produced. -/
def authenticate_drive (env : AuthEnv) (g0 : Globals) (ds : DriveState) :
    Bool × Globals × DriveState :=
  if env.gauthRaises then (false, g0, ds)
  else
    let resolved := get_or_create_drive_folder true env.folderEnv ds "plants" none
    (true, { g0 with driveAuthed := true, plants_folder_id := resolved.1 },
     resolved.2)

/-- The globals as the module initialises them (lines 37–39): `drive`
unbound, `plants_folder_id` absent, `running = True`. -/
def g0init : Globals :=
  { driveAuthed := false, plants_folder_id := none, running := true }

/-- Observable record of a `main()` run, up to entry into the
`while running` loop. -/
structure MainOut where
  authOk : Bool
  /-- number of `capture_and_upload` cycles started. -/
  cyclesStarted : Nat
  /-- control reached the `while running` loop (line 249). -/
  loopEntered : Bool
  /-- the process died on an uncaught exception. -/
  crashed : Bool
deriving Repr, DecidableEq

/-- `main()` (lines 230–255) until the loop is entered: authenticate, then
return on failure; on success schedule the job, run the first immediate
`capture_and_upload` (line 245, before the `try`), and enter the loop
unless that first cycle raised. -/
def mainRun (auth : AuthEnv) (firstCycle : CycleEnv) (ds : DriveState) :
    MainOut :=
  let a := authenticate_drive auth g0init ds
  if !a.1 then
    { authOk := false, cyclesStarted := 0, loopEntered := false, crashed := false }
  else
    let cyc := capture_and_upload a.2.1 a.2.2 firstCycle
    if cyc.1.raised then
      { authOk := true, cyclesStarted := 1, loopEntered := false, crashed := true }
    else
      { authOk := true, cyclesStarted := 1, loopEntered := true, crashed := false }

/-- The exception classes relevant to `main`'s handlers. -/
inductive PyExc where
  /-- raised by `sys.exit(0)`; not a subclass of `Exception`. -/
  | systemExit
  | keyboardInterrupt
  /-- any other `Exception` subclass. -/
  | otherError
deriving Repr, DecidableEq

/-- Does a clause `except Exception` catch the exception?  `SystemExit`
and `KeyboardInterrupt` derive from `BaseException` only. -/
def exceptExceptionCatches : PyExc → Bool
  | PyExc.systemExit => false
  | PyExc.keyboardInterrupt => true
  | PyExc.otherError => true

/-- Does the loop's `except KeyboardInterrupt` clause (line 252) catch the
exception? -/
def exceptKeyboardInterruptCatches : PyExc → Bool
  | PyExc.keyboardInterrupt => true
  | _ => false

/-- The interpreter state the signal handler touches. -/
structure ProcState where
  running : Bool
deriving Repr, DecidableEq

/-- `signal_handler(sig, frame)` (lines 43–47): sets `running = False`,
then `sys.exit(0)` raises `SystemExit` at the point of the main thread
where the signal was delivered.  Returns the new state and the exception
the handler raises (if any). -/
def signal_handler (s : ProcState) : ProcState × Option PyExc :=
  ({ s with running := false }, some PyExc.systemExit)

/-- Outcome of running one in-flight capture/upload cycle of `total`
atomic steps while a shutdown signal is delivered after `sigAt` steps
(`none`: no signal).  CPython runs the handler on the main thread between
two steps; an exception the handler raises propagates from that point, so
the remaining steps run only if the handler returns normally.  Returns
(state, exception escaping the cycle, steps of the cycle executed). -/
def runCycleSteps (total : Nat) (sigAt : Option Nat) (s : ProcState) :
    ProcState × Option PyExc × Nat :=
  match sigAt with
  | none => (s, none, total)
  | some k =>
    if k < total then
      let h := signal_handler s
      match h.2 with
      | some e => (h.1, some e, k)
      | none => (h.1, none, total)
    else (s, none, total)

/-- What the `while running` loop does with an exception escaping a cycle
run by `schedule.run_pending()`: `except KeyboardInterrupt` absorbs a
`KeyboardInterrupt` and falls to `finally`; every other exception
propagates after `finally` and kills the process. -/
structure LoopExit where
  /-- the loop came back to `while running` and re-checked the flag. -/
  flagObservedBetweenTicks : Bool
  /-- the process terminated on an uncaught exception. -/
  crashed : Bool
deriving Repr, DecidableEq

/-- Effect on the main loop (lines 248–255) of one cycle outcome: on a
normal return `schedule.run_pending()` finishes and control reaches the
`while running` test again; an exception is matched against
`except KeyboardInterrupt` only, so any other exception (`SystemExit`
included) escapes the loop and ends the process. -/
def loopAfterCycle (exc : Option PyExc) : LoopExit :=
  match exc with
  | none => { flagObservedBetweenTicks := true, crashed := false }
  | some e =>
    if exceptKeyboardInterruptCatches e then
      { flagObservedBetweenTicks := false, crashed := false }
    else
      { flagObservedBetweenTicks := false, crashed := true }

/-! ### Helper lemmas about the upload retry loop -/

lemma uploadLoop_count_le (f : Nat → Bool) (m : Nat) :
    ∀ r a, (uploadLoop f m a r).2.1 ≤ r := by
  intro r
  induction r with
  | zero => intro a; simp [uploadLoop]
  | succ n ih =>
    intro a
    by_cases hf : f a = true
    · have := ih (a + 1)
      simp only [uploadLoop, hf, if_true]
      omega
    · simp [uploadLoop, hf]

lemma uploadLoop_success_pos (f : Nat → Bool) (m : Nat) :
    ∀ r a, (uploadLoop f m a r).1 = true → 1 ≤ (uploadLoop f m a r).2.1 := by
  intro r
  induction r with
  | zero => intro a h; simp [uploadLoop] at h
  | succ n _ =>
    intro a _
    by_cases hf : f a = true
    · simp only [uploadLoop, hf, if_true]
      omega
    · simp [uploadLoop, hf]

lemma uploadLoop_first_success (f : Nat → Bool) (m : Nat) :
    ∀ r a j, j < r → f (a + j) = false → (∀ i, i < j → f (a + i) = true) →
      (uploadLoop f m a r).1 = true ∧ (uploadLoop f m a r).2.1 = j + 1 := by
  intro r
  induction r with
  | zero => intro a j hj; omega
  | succ n ih =>
    intro a j hj hfj hprev
    by_cases hf : f a = true
    · have hj0 : j ≠ 0 := by
        intro h
        subst h
        rw [Nat.add_zero] at hfj
        rw [hf] at hfj
        simp at hfj
      obtain ⟨k, rfl⟩ : ∃ k, j = k + 1 := ⟨j - 1, by omega⟩
      have e1 : a + (k + 1) = (a + 1) + k := by omega
      have hrec := ih (a + 1) k (by omega) (by rw [← e1]; exact hfj)
        (fun i hi => by
          have e2 : a + (i + 1) = (a + 1) + i := by omega
          have := hprev (i + 1) (by omega)
          rwa [e2] at this)
      simp only [uploadLoop, hf, if_true]
      exact ⟨hrec.1, by omega⟩
    · simp only [uploadLoop, hf]
      have hj0 : j = 0 := by
        by_contra hne
        have := hprev 0 (by omega)
        rw [Nat.add_zero] at this
        exact hf this
      subst hj0
      simp

lemma uploadLoop_all_fail (f : Nat → Bool) (m : Nat) :
    ∀ r a, (∀ i, i < r → f (a + i) = true) →
      (uploadLoop f m a r).1 = false ∧ (uploadLoop f m a r).2.1 = r := by
  intro r
  induction r with
  | zero => intro a _; simp [uploadLoop]
  | succ n ih =>
    intro a h
    have hf : f a = true := by
      have := h 0 (by omega)
      rwa [Nat.add_zero] at this
    have hrec := ih (a + 1) (fun i hi => by
      have e : a + (i + 1) = (a + 1) + i := by omega
      have := h (i + 1) (by omega)
      rwa [e] at this)
    simp only [uploadLoop, hf, if_true]
    exact ⟨hrec.1, by omega⟩

lemma uploadLoop_sleeps_five (f : Nat → Bool) (m : Nat) :
    ∀ r a d, d ∈ (uploadLoop f m a r).2.2 → d = 5 := by
  intro r
  induction r with
  | zero => intro a d h; simp [uploadLoop] at h
  | succ n ih =>
    intro a d h
    by_cases hf : f a = true
    · simp only [uploadLoop, hf, if_true] at h
      rw [List.mem_append] at h
      rcases h with h | h
      · by_cases hlt : a < m - 1
        · rw [if_pos hlt] at h
          simpa using h
        · rw [if_neg hlt] at h
          simp at h
      · exact ih (a + 1) d h
    · simp [uploadLoop, hf] at h

lemma uploadLoop_sleeps_len (f : Nat → Bool) (m : Nat) :
    ∀ r a, a + r = m →
      (uploadLoop f m a r).2.2.length =
        (if (uploadLoop f m a r).1 = true then (uploadLoop f m a r).2.1 - 1 else r - 1) := by
  intro r
  induction r with
  | zero => intro a _; simp [uploadLoop]
  | succ n ih =>
    intro a ha
    by_cases hf : f a = true
    · simp only [uploadLoop, hf, if_true, List.length_append]
      rcases Nat.eq_zero_or_pos n with hn | hn
      · subst hn
        have hlt : ¬ a < m - 1 := by omega
        simp [uploadLoop, hlt]
      · have hlt : a < m - 1 := by omega
        rw [if_pos hlt]
        have hrec := ih (a + 1) (by omega)
        by_cases hs : (uploadLoop f m (a + 1) n).1 = true
        · have hpos := uploadLoop_success_pos f m n (a + 1) hs
          rw [if_pos hs] at hrec
          rw [if_pos hs]
          simp only [List.length_cons, List.length_nil]
          omega
        · rw [if_neg hs] at hrec
          rw [if_neg hs]
          simp only [List.length_cons, List.length_nil]
          omega
    · simp [uploadLoop, hf]

/-! ### Helper lemmas about `capture_image` and concrete sample environments -/

lemma capture_image_no_raise (env : CameraEnv) :
    (capture_image env).1.raised = false := by
  unfold capture_image
  split_ifs <;> rfl

lemma capture_image_success_size (env : CameraEnv)
    (h : (capture_image env).1.result = true) :
    (capture_image env).2 = env.writtenSize
    ∧ ∃ sz, env.writtenSize = some sz ∧ 1000 < sz := by
  unfold capture_image at h ⊢
  split_ifs at h ⊢
  all_goals try simp_all
  cases hw : env.writtenSize with
  | none => rw [hw] at h; simp at h
  | some sz =>
    rw [hw] at h
    simp only at h
    exact ⟨sz, rfl, by simpa using h⟩

lemma capture_image_device_fail (c : CameraEnv) (h1 : c.ctorRaises = false)
    (h2 : c.setRaises = false) (h3 : c.readRaises = false)
    (hf : c.isOpened = false ∨ c.readRet = false ∨ c.frameSome = false) :
    capture_image c = (⟨false, false, true, true, false⟩, c.preexisting) := by
  unfold capture_image
  rcases hf with h | h | h <;> simp [h1, h2, h3, h]

/-! ### Branch lemmas about `capture_and_upload` -/

lemma cau_not_running (g : Globals) (ds : DriveState) (env : CycleEnv)
    (hrun : g.running = false) :
    capture_and_upload g ds env = (cycleOutIdle, ds) := by
  unfold capture_and_upload
  rw [hrun]
  rfl

lemma cau_makedirs_raises (g : Globals) (ds : DriveState) (env : CycleEnv)
    (hrun : g.running = true) (hmk : env.makedirsRaises = true) :
    (capture_and_upload g ds env).1.raised = true
    ∧ (capture_and_upload g ds env).1.captureOk = false
    ∧ (capture_and_upload g ds env).2 = ds := by
  unfold capture_and_upload
  rw [hrun, hmk]
  exact ⟨rfl, rfl, rfl⟩

lemma cau_capture_fields (g : Globals) (ds : DriveState) (env : CycleEnv)
    (hrun : g.running = true) (hmk : env.makedirsRaises = false) :
    (capture_and_upload g ds env).1.captureCalled = true
    ∧ (capture_and_upload g ds env).1.captureOk = (capture_image env.cam).1.result
    ∧ (capture_and_upload g ds env).1.localPath =
        ospJoin (ospJoin CONFIG.image_root (strftimeDateFolder env.nowT))
          (strftimeFilename env.nowT)
    ∧ (capture_and_upload g ds env).1.fileAfter = (capture_image env.cam).2 := by
  unfold capture_and_upload
  rw [hrun, hmk]
  simp only [Bool.not_true, Bool.false_eq_true, if_false]
  split_ifs <;> simp_all

lemma cau_capture_fail (g : Globals) (ds : DriveState) (env : CycleEnv)
    (hrun : g.running = true) (hmk : env.makedirsRaises = false)
    (hcap : (capture_image env.cam).1.result = false) :
    (capture_and_upload g ds env).1.raised = false
    ∧ (capture_and_upload g ds env).1.uploadCalled = false
    ∧ (capture_and_upload g ds env).1.resolverCalled = false
    ∧ (capture_and_upload g ds env).2 = ds := by
  unfold capture_and_upload
  rw [hrun, hmk]
  simp [hcap]

lemma cau_no_plants (g : Globals) (ds : DriveState) (env : CycleEnv)
    (hrun : g.running = true) (hmk : env.makedirsRaises = false)
    (hcap : (capture_image env.cam).1.result = true)
    (hgate : (g.driveAuthed && truthyStr g.plants_folder_id) = false) :
    (capture_and_upload g ds env).1.skipWarning = true
    ∧ (capture_and_upload g ds env).1.uploadCalled = false
    ∧ (capture_and_upload g ds env).1.resolverCalled = false
    ∧ (capture_and_upload g ds env).1.captureOk = true
    ∧ (capture_and_upload g ds env).1.raised = false
    ∧ (capture_and_upload g ds env).2 = ds := by
  unfold capture_and_upload
  rw [hrun, hmk]
  simp [hcap, hgate]

lemma cau_no_raise (g : Globals) (ds : DriveState) (env : CycleEnv)
    (hmk : env.makedirsRaises = false) (hld : env.listdirRaises = false) :
    (capture_and_upload g ds env).1.raised = false := by
  unfold capture_and_upload
  by_cases hrun : g.running = true
  · rw [hrun, hmk]
    simp only [Bool.not_true, Bool.false_eq_true, if_false]
    split_ifs <;> simp_all
  · rw [Bool.not_eq_true] at hrun
    rw [hrun]
    rfl

/-- A sample clock value. -/
def t0 : Timestamp := ⟨2026, 10, 12, 3, 4, 5⟩

/-- A camera environment where everything succeeds and the write leaves a
5000-byte file. -/
def camEnvOk : CameraEnv :=
  ⟨false, true, false, false, true, true, false, some 5000, none⟩

/-- A camera environment whose device cannot be opened. -/
def camEnvClosed : CameraEnv :=
  ⟨false, false, false, false, true, true, false, some 5000, none⟩

/-- An empty remote Drive. -/
def dsEmpty : DriveState := ⟨[], 0⟩

/-- Remote calls that do not raise. -/
def fEnvOk : FolderEnv := ⟨false, false⟩

/-- Globals after a fully successful authentication. -/
def gAuthed : Globals := ⟨true, some "plants-id", true⟩

/-- A cycle environment where every external call succeeds. -/
def cycleEnvOk : CycleEnv :=
  ⟨t0, false, camEnvOk, fEnvOk, fun _ => false, false⟩

/-- A cycle environment whose camera cannot be opened. -/
def cycleEnvClosedCam : CycleEnv :=
  ⟨t0, false, camEnvClosed, fEnvOk, fun _ => false, false⟩

/-- A cycle environment where `os.makedirs` raises. -/
def cycleEnvBadMakedirs : CycleEnv :=
  ⟨t0, true, camEnvOk, fEnvOk, fun _ => false, false⟩

/-! ### The claims -/

/-- Claim C4: for every `max_retries` value `N` (default 3),
`upload_with_retry` performs at most `N` upload attempts, returns success
exactly at the first attempt that succeeds, returns failure — after all `N`
attempts — only when every attempt fails, and sleeps the fixed 5-unit delay
after a failed attempt exactly when attempts remain.  (`f i = true` means
attempt `i` raises, i.e. fails.) -/
theorem upload_with_retry_bounded (f : Nat → Bool) (N : Nat) :
    (upload_with_retry f (some N)).2.1 ≤ N
    ∧ (∀ j, j < N → f j = false → (∀ i, i < j → f i = true) →
        (upload_with_retry f (some N)).1 = true
        ∧ (upload_with_retry f (some N)).2.1 = j + 1)
    ∧ ((∀ i, i < N → f i = true) →
        (upload_with_retry f (some N)).1 = false
        ∧ (upload_with_retry f (some N)).2.1 = N)
    ∧ (∀ d ∈ (upload_with_retry f (some N)).2.2, d = 5)
    ∧ (upload_with_retry f (some N)).2.2.length =
        (if (upload_with_retry f (some N)).1 = true
         then (upload_with_retry f (some N)).2.1 - 1 else N - 1)
    ∧ upload_with_retry f none = upload_with_retry f (some 3) := by
  unfold upload_with_retry
  simp only [Option.getD_some]
  refine ⟨uploadLoop_count_le f N N 0, ?_, ?_, ?_, ?_, rfl⟩
  · intro j hj hfj hprev
    exact uploadLoop_first_success f N N 0 j hj (by rwa [Nat.zero_add])
      (fun i hi => by rw [Nat.zero_add]; exact hprev i hi)
  · intro hall
    exact uploadLoop_all_fail f N N 0
      (fun i hi => by rw [Nat.zero_add]; exact hall i hi)
  · exact uploadLoop_sleeps_five f N N 0
  · exact uploadLoop_sleeps_len f N N 0 (by omega)

/-- Witness for C4: with every attempt failing and `N = 2`, the call
reports failure after exactly 2 attempts. -/
theorem upload_with_retry_bounded_witness :
    (upload_with_retry (fun _ => true) (some 2)).1 = false
    ∧ (upload_with_retry (fun _ => true) (some 2)).2.1 = 2 :=
  (upload_with_retry_bounded (fun _ => true) 2).2.2.1 (fun _ _ => rfl)

/-- Claim C8: on every exit path of `capture_image` — success, reported
failure, or a caught exception — the camera handle is released whenever it
was acquired (`finally: if cam is not None: cam.release()`). -/
theorem capture_image_releases (env : CameraEnv)
    (h : (capture_image env).1.acquired = true) :
    (capture_image env).1.released = true := by
  have hra : (capture_image env).1.released = (capture_image env).1.acquired := by
    unfold capture_image
    split_ifs <;> rfl
  rw [hra, h]

/-- Witness for C8 at the all-success camera environment. -/
theorem capture_image_releases_witness :
    (capture_image camEnvOk).1.released = true :=
  capture_image_releases camEnvOk rfl

lemma queryMatches_createdFolder (name : String) (parent : Option String)
    (n : Nat) :
    queryMatches name parent (createdFolder name parent n) = true := by
  unfold queryMatches createdFolder
  by_cases hp : truthyStr parent = true
  · simp [hp]
  · rw [Bool.not_eq_true] at hp
    simp [hp]

/-- Claim C5: folder resolution is idempotent.  If no folder matches
`(name, parent)` and the first `get_or_create_drive_folder` call creates
one (no remote call raising), a second call with the same pair returns the
same identifier and leaves the Drive state unchanged — no duplicate is
created. -/
theorem folder_resolution_idempotent (ds : DriveState) (name : String)
    (parent : Option String) (env1 env2 : FolderEnv)
    (h1 : env1.listRaises = false) (h2 : env1.createRaises = false)
    (h3 : env2.listRaises = false)
    (hnone : ds.folders.filter (queryMatches name parent) = []) :
    (get_or_create_drive_folder true env1 ds name parent).1 =
      some (createdFolder name parent ds.nextId).id
    ∧ get_or_create_drive_folder true env2
        (get_or_create_drive_folder true env1 ds name parent).2 name parent =
      ((get_or_create_drive_folder true env1 ds name parent).1,
       (get_or_create_drive_folder true env1 ds name parent).2) := by
  have hfirst : get_or_create_drive_folder true env1 ds name parent =
      (some (createdFolder name parent ds.nextId).id,
       ⟨ds.folders ++ [createdFolder name parent ds.nextId], ds.nextId + 1⟩) := by
    unfold get_or_create_drive_folder
    rw [hnone]
    simp [h1, h2]
  have hfil : (ds.folders ++ [createdFolder name parent ds.nextId]).filter
      (queryMatches name parent) = [createdFolder name parent ds.nextId] := by
    rw [List.filter_append, hnone]
    simp [queryMatches_createdFolder]
  constructor
  · rw [hfirst]
  · rw [hfirst]
    unfold get_or_create_drive_folder
    simp only [Bool.not_true, Bool.false_eq_true, if_false, h3]
    rw [hfil]

/-- Witness for C5 on the empty Drive: resolving `plants` twice under the
root yields the same identifier and the same single-folder state. -/
theorem folder_resolution_idempotent_witness :
    (get_or_create_drive_folder true fEnvOk dsEmpty "plants" none).1 =
      some (createdFolder "plants" none 0).id
    ∧ get_or_create_drive_folder true fEnvOk
        (get_or_create_drive_folder true fEnvOk dsEmpty "plants" none).2 "plants"
        none =
      ((get_or_create_drive_folder true fEnvOk dsEmpty "plants" none).1,
       (get_or_create_drive_folder true fEnvOk dsEmpty "plants" none).2) :=
  folder_resolution_idempotent dsEmpty "plants" none fEnvOk fEnvOk rfl rfl rfl rfl

/-- Claim C6: `get_or_create_drive_folder` returns the identifier of the
first matching un-trashed folder when matches exist (the head of the
service's filtered list), creates a folder under the given parent and
returns its fresh identifier when no match exists, and returns `None`
whenever a remote call fails (listing raises, or creation raises with no
match present). -/
theorem folder_resolution_cases (env : FolderEnv) (ds : DriveState)
    (name : String) (parent : Option String) :
    (∀ f rest, env.listRaises = false →
       ds.folders.filter (queryMatches name parent) = f :: rest →
       get_or_create_drive_folder true env ds name parent = (some f.id, ds))
    ∧ (env.listRaises = false → env.createRaises = false →
       ds.folders.filter (queryMatches name parent) = [] →
       get_or_create_drive_folder true env ds name parent =
         (some (createdFolder name parent ds.nextId).id,
          ⟨ds.folders ++ [createdFolder name parent ds.nextId], ds.nextId + 1⟩))
    ∧ (env.listRaises = true →
       get_or_create_drive_folder true env ds name parent = (none, ds))
    ∧ (env.listRaises = false → env.createRaises = true →
       ds.folders.filter (queryMatches name parent) = [] →
       get_or_create_drive_folder true env ds name parent = (none, ds)) := by
  refine ⟨?_, ?_, ?_, ?_⟩
  · intro f rest hl hfil
    unfold get_or_create_drive_folder
    rw [hfil]
    simp [hl]
  · intro hl hc hfil
    unfold get_or_create_drive_folder
    rw [hfil]
    simp [hl, hc]
  · intro hl
    unfold get_or_create_drive_folder
    simp [hl]
  · intro hl hc hfil
    unfold get_or_create_drive_folder
    rw [hfil]
    simp [hl, hc]

/-- Witness for C6: on the empty Drive with no raises, resolving `plants`
creates the folder and returns its fresh identifier. -/
theorem folder_resolution_cases_witness :
    get_or_create_drive_folder true fEnvOk dsEmpty "plants" none =
      (some (createdFolder "plants" none 0).id, ⟨[createdFolder "plants" none 0], 1⟩) :=
  (folder_resolution_cases fEnvOk dsEmpty "plants" none).2.1 rfl rfl rfl

/-- Claim C3: whenever the cycle's `capture_image` call reports success,
the captured file exists, is at least 1000 bytes (the source demands
strictly more than 1000), and sits at the exact computed path
`<image_root>/<YYYY-MM-DD>/<YYYYMMDD_HHMMSS>.jpg` derived from the
current timestamp.  The configured quality and requested resolution only
influence the bytes the device writes, which the environment quantifies
over. -/
theorem capture_success_file_at_path (g : Globals) (ds : DriveState)
    (env : CycleEnv)
    (hcap : (capture_and_upload g ds env).1.captureOk = true) :
    (capture_and_upload g ds env).1.localPath =
      CONFIG.image_root ++ "/" ++ strftimeDateFolder env.nowT ++ "/"
        ++ strftimeFilename env.nowT
    ∧ ∃ sz, (capture_and_upload g ds env).1.fileAfter = some sz ∧ 1000 ≤ sz := by
  by_cases hrun : g.running = true
  · by_cases hmk : env.makedirsRaises = true
    · exact absurd hcap (by rw [(cau_makedirs_raises g ds env hrun hmk).2.1]; simp)
    · rw [Bool.not_eq_true] at hmk
      obtain ⟨_, hok, hpath, hfile⟩ := cau_capture_fields g ds env hrun hmk
      rw [hok] at hcap
      obtain ⟨hfa, sz, hsz, hgt⟩ := capture_image_success_size env.cam hcap
      refine ⟨by rw [hpath]; rfl, sz, ?_, by omega⟩
      rw [hfile, hfa, hsz]
  · rw [Bool.not_eq_true] at hrun
    rw [cau_not_running g ds env hrun] at hcap
    simp [cycleOutIdle] at hcap

/-- Witness for C3 with the all-success environment at the sample clock. -/
theorem capture_success_file_at_path_witness :
    (capture_and_upload gAuthed dsEmpty cycleEnvOk).1.localPath =
      CONFIG.image_root ++ "/" ++ strftimeDateFolder t0 ++ "/" ++ strftimeFilename t0
    ∧ ∃ sz, (capture_and_upload gAuthed dsEmpty cycleEnvOk).1.fileAfter = some sz
        ∧ 1000 ≤ sz :=
  capture_success_file_at_path gAuthed dsEmpty cycleEnvOk rfl

/-- Claim C7: when the camera cannot be opened or delivers no frame (or a
null frame), `capture_image` returns failure without throwing and with no
file written; `capture_and_upload` then neither resolves a Drive folder
nor invokes the uploader, the local file state is untouched, and the cycle
returns normally so the loop survives to the next tick. -/
theorem device_failure_no_upload (g : Globals) (ds : DriveState)
    (env : CycleEnv) (hrun : g.running = true)
    (hmk : env.makedirsRaises = false)
    (h1 : env.cam.ctorRaises = false) (h2 : env.cam.setRaises = false)
    (h3 : env.cam.readRaises = false)
    (hf : env.cam.isOpened = false ∨ env.cam.readRet = false
          ∨ env.cam.frameSome = false) :
    (capture_image env.cam).1.result = false
    ∧ (capture_image env.cam).1.raised = false
    ∧ (capture_image env.cam).1.wrote = false
    ∧ (capture_image env.cam).2 = env.cam.preexisting
    ∧ (capture_and_upload g ds env).1.uploadCalled = false
    ∧ (capture_and_upload g ds env).1.resolverCalled = false
    ∧ (capture_and_upload g ds env).1.raised = false
    ∧ (capture_and_upload g ds env).2 = ds
    ∧ (loopAfterCycle none).flagObservedBetweenTicks = true := by
  have hci := capture_image_device_fail env.cam h1 h2 h3 hf
  have hres : (capture_image env.cam).1.result = false := by rw [hci]
  obtain ⟨hr, hu, hrc, hds⟩ := cau_capture_fail g ds env hrun hmk hres
  exact ⟨hres, by rw [hci], by rw [hci], by rw [hci], hu, hrc, hr, hds, rfl⟩

/-- Witness for C7 at a device that cannot be opened. -/
theorem device_failure_no_upload_witness :
    (capture_image camEnvClosed).1.result = false
    ∧ (capture_and_upload gAuthed dsEmpty cycleEnvClosedCam).1.uploadCalled = false := by
  have h := device_failure_no_upload gAuthed dsEmpty cycleEnvClosedCam
    rfl rfl rfl rfl rfl (Or.inl rfl)
  exact ⟨h.1, h.2.2.2.2.1⟩

/-- Claim C2 counterexample: with `os.makedirs` raising (line 199 sits
outside every `try`), the exception escapes `capture_and_upload`; an
ordinary `Exception` escaping a scheduled cycle is not matched by the
loop's `except KeyboardInterrupt`, so the process dies instead of
continuing to the next tick — refuting "an exception anywhere inside a
cycle (including local directory creation) is absorbed". -/
theorem cycle_exception_escapes :
    (capture_and_upload gAuthed dsEmpty cycleEnvBadMakedirs).1.raised = true
    ∧ (loopAfterCycle (some PyExc.otherError)).crashed = true
    ∧ (loopAfterCycle (some PyExc.otherError)).flagObservedBetweenTicks = false :=
  ⟨rfl, rfl, rfl⟩

/-- Claim C2 amended: provided the two filesystem calls that sit outside
every `try` — `os.makedirs` (line 199) and `os.listdir` (line 214) — do
not raise, no exception escapes a cycle: `capture_image` absorbs every
device exception into a Boolean, the resolver and uploader absorb remote
exceptions, and the loop goes on to the next tick. -/
theorem cycle_exceptions_absorbed_except_fs (g : Globals) (ds : DriveState)
    (env : CycleEnv) (hmk : env.makedirsRaises = false)
    (hld : env.listdirRaises = false) :
    (capture_and_upload g ds env).1.raised = false
    ∧ (∀ c : CameraEnv, (capture_image c).1.raised = false)
    ∧ (loopAfterCycle none).crashed = false :=
  ⟨cau_no_raise g ds env hmk hld, capture_image_no_raise, rfl⟩

/-- Witness for the amended C2 at the all-success environment. -/
theorem cycle_exceptions_absorbed_witness :
    (capture_and_upload gAuthed dsEmpty cycleEnvOk).1.raised = false :=
  (cycle_exceptions_absorbed_except_fs gAuthed dsEmpty cycleEnvOk rfl rfl).1

/-- Claim C1 (code bug): `signal_handler` sets the `running` flag but then
calls `sys.exit(0)`, raising `SystemExit` at the interrupted point of the
main thread.  Delivered after step 1 of a 3-step in-flight cycle, the
handler's exception skips the cycle's remaining steps (only 1 of 3 steps
run), `except Exception` clauses do not catch `SystemExit`, and the loop
never observes the flag between ticks — the in-flight cycle IS
interrupted, contradicting the claim. -/
theorem shutdown_signal_aborts_inflight_cycle :
    (signal_handler ⟨true⟩).2 = some PyExc.systemExit
    ∧ (signal_handler ⟨true⟩).1.running = false
    ∧ (runCycleSteps 3 (some 1) ⟨true⟩).2.2 = 1
    ∧ (runCycleSteps 3 (some 1) ⟨true⟩).2.1 = some PyExc.systemExit
    ∧ exceptExceptionCatches PyExc.systemExit = false
    ∧ (loopAfterCycle (runCycleSteps 3 (some 1) ⟨true⟩).2.1).flagObservedBetweenTicks
        = false
    ∧ (loopAfterCycle (runCycleSteps 3 (some 1) ⟨true⟩).2.1).crashed = true :=
  ⟨rfl, rfl, rfl, rfl, rfl, rfl, rfl⟩

/-- Claim C9: if startup authentication fails, `main` returns before the
scheduler loop and no capture/upload cycle ever starts; conversely the
loop is entered only when authentication succeeded. -/
theorem auth_failure_gates_loop (auth : AuthEnv) (env : CycleEnv)
    (ds : DriveState) :
    ((authenticate_drive auth g0init ds).1 = false →
       mainRun auth env ds =
         { authOk := false, cyclesStarted := 0, loopEntered := false
         , crashed := false })
    ∧ ((mainRun auth env ds).loopEntered = true →
       (mainRun auth env ds).authOk = true) := by
  constructor
  · intro hfail
    unfold mainRun
    simp [hfail]
  · intro hloop
    by_cases ha : (authenticate_drive auth g0init ds).1 = true
    · unfold mainRun
      simp only [ha, Bool.not_true, Bool.false_eq_true, if_false]
      split_ifs <;> rfl
    · rw [Bool.not_eq_true] at ha
      unfold mainRun at hloop
      simp [ha] at hloop

/-- Witness for C9: with the `GoogleAuth` flow raising, `main` performs no
cycle and never reaches the loop. -/
theorem auth_failure_gates_loop_witness :
    mainRun ⟨true, fEnvOk⟩ cycleEnvOk dsEmpty =
      { authOk := false, cyclesStarted := 0, loopEntered := false
      , crashed := false } :=
  (auth_failure_gates_loop ⟨true, fEnvOk⟩ cycleEnvOk dsEmpty).1 rfl

/-- Claim C10 (implicit): when the `GoogleAuth` steps succeed but the
`plants` folder resolution yields `None`, `authenticate_drive` still
reports success with `plants_folder_id = None`; every subsequent cycle
with a working camera then stores the image locally, skips folder
resolution and upload entirely, and logs the skip warning — uploads are
disabled without being treated as an authentication failure. -/
theorem plants_resolution_failure_soft (auth : AuthEnv) (ds : DriveState)
    (env : CycleEnv) (hga : auth.gauthRaises = false)
    (hres : (get_or_create_drive_folder true auth.folderEnv ds "plants" none).1
      = none) :
    (authenticate_drive auth g0init ds).1 = true
    ∧ (authenticate_drive auth g0init ds).2.1.plants_folder_id = none
    ∧ (∀ g2 ds2, g2.plants_folder_id = none → g2.running = true →
         env.makedirsRaises = false →
         (capture_image env.cam).1.result = true →
         (capture_and_upload g2 ds2 env).1.skipWarning = true
         ∧ (capture_and_upload g2 ds2 env).1.uploadCalled = false
         ∧ (capture_and_upload g2 ds2 env).1.resolverCalled = false
         ∧ (capture_and_upload g2 ds2 env).1.captureOk = true
         ∧ (capture_and_upload g2 ds2 env).1.raised = false
         ∧ (capture_and_upload g2 ds2 env).2 = ds2) := by
  refine ⟨?_, ?_, ?_⟩
  · unfold authenticate_drive
    rw [hga]
    rfl
  · unfold authenticate_drive
    rw [hga]
    simp only [Bool.false_eq_true, if_false]
    exact hres
  · intro g2 ds2 hpn hrun hmk hcap
    have hgate : (g2.driveAuthed && truthyStr g2.plants_folder_id) = false := by
      rw [hpn]
      simp [truthyStr]
    exact cau_no_plants g2 ds2 env hrun hmk hcap hgate

/-- Witness for C10: the `plants` listing raises, authentication still
reports success, and a cycle with a working camera logs the skip warning. -/
theorem plants_resolution_failure_soft_witness :
    (authenticate_drive ⟨false, ⟨true, false⟩⟩ g0init dsEmpty).1 = true
    ∧ (capture_and_upload ⟨true, none, true⟩ dsEmpty cycleEnvOk).1.skipWarning
        = true := by
  have h := plants_resolution_failure_soft ⟨false, ⟨true, false⟩⟩ dsEmpty
    cycleEnvOk rfl rfl
  exact ⟨h.1, (h.2.2 ⟨true, none, true⟩ dsEmpty rfl rfl rfl rfl).1⟩

end PlantCam
